import Mathlib

/-!
Verification of the N-body core of the SedsHackathon repository.

The embedding models the numeric Python code over the real numbers:
2-D numpy arrays become pairs of reals, `np.linalg.norm` becomes
`Real.sqrt` of the sum of squares, and a division whose divisor is zero
(which has no real-number value; numpy produces nan/inf there) is
modelled by an `Option` result that is `none` in that case.  Code that
explicitly guards every division (the evaluators in physics.py) is
embedded as a total function.
-/

namespace Seds

open Classical

noncomputable section

/-- A 2-D vector (a numpy array of shape (2,)). -/
abbrev Vec := ℝ × ℝ

/-- np.linalg.norm of a 2-D vector. -/
def linalgNorm (v : Vec) : ℝ := Real.sqrt (v.1 ^ 2 + v.2 ^ 2)

/-- Gravitational constant of physics.py and AsteroidDeflectionGame1.py,
    in AU^3 / (solar mass * day^2). -/
def G : ℝ := 2.959e-4

/-- physics.py class Asteroid: a free body with explicit state.
    Fields in the order of `__init__`: pos, vel, mass, trail. -/
structure Asteroid where
  pos : Vec
  vel : Vec
  mass : ℝ
  trail : List Vec

/-- physics.py body model: an orbit-locked Planet (mass, orbit_radius,
    orbital_velocity, name; the colour field is display-only and dropped)
    or a free Asteroid. -/
inductive Body where
  | planet (mass orbit_radius orbital_velocity : ℝ) (name : String) : Body
  | free (a : Asteroid) : Body

/-- The mass attribute read by the force evaluators. -/
def Body.mass : Body → ℝ
  | .planet m _ _ _ => m
  | .free a => a.mass

/-- Position of a body at time t: `Planet.get_position` for orbit-locked
    bodies (the body named "Sun" is pinned at the origin), and the stored
    `pos` for a free body (the `hasattr(body, "pos")` branch of the
    force evaluators). -/
def Body.positionAt (b : Body) (t : ℝ) : Vec :=
  match b with
  | .planet _ orad ovel nm =>
      if nm = "Sun" then (0, 0)
      else (orad * Real.cos (ovel / orad * t), orad * Real.sin (ovel / orad * t))
  | .free a => a.pos

/-- The shared gravitational accumulation loop of physics.py
    (`Planet.get_acceleration` and the gravity part of
    `Asteroid.get_acceleration`): starting from zeros(2), for each source
    body accumulate `-G * mass * r / dist**3` with
    `r = my_pos - body_pos`, skipping the term when `dist == 0`.
    The `body is self` identity test is modelled by the source list not
    containing the target. -/
def gravityTotal (bodies : List Body) (myPos : Vec) (t : ℝ) : Vec :=
  bodies.foldl (fun acc b =>
    let r := myPos - b.positionAt t
    let dist := linalgNorm r
    if dist = 0 then acc
    else acc + (-G * b.mass / dist ^ 3) • r) 0

/-- physics.py `Planet.get_acceleration`: purely the gravitational loop. -/
def planetGetAcceleration (bodies : List Body) (myPos : Vec) (t : ℝ) : Vec :=
  gravityTotal bodies myPos t

/-- physics.py `Asteroid.get_acceleration`: the gravitational loop, then
    the laser thrust term, applied only when all three laser parameters
    are not None, `laser_start_time <= t < laser_start_time +
    laser_duration`, and `np.linalg.norm(self.vel) > 0`; the thrust
    direction is `-self.vel / np.linalg.norm(self.vel)`. -/
def asteroidGetAcceleration (bodies : List Body) (pos vel : Vec) (t : ℝ)
    (laser_thrust laser_start_time laser_duration : Option ℝ) : Vec :=
  let total_accel := gravityTotal bodies pos t
  match laser_thrust, laser_start_time, laser_duration with
  | some lt, some ls, some ld =>
      if ls ≤ t ∧ t < ls + ld then
        if 0 < linalgNorm vel then
          total_accel + lt • ((linalgNorm vel)⁻¹ • (-vel))
        else total_accel
      else total_accel
  | _, _, _ => total_accel

/-- physics.py `Asteroid.update`: `self.vel += accel * dt`,
    `self.pos += self.vel * dt` (the already-updated velocity), then
    `self.trail.append(self.pos.copy())`. -/
def Asteroid.update (a : Asteroid) (dt t : ℝ) (bodies : List Body)
    (laser_thrust laser_start_time laser_duration : Option ℝ) : Asteroid :=
  let accel := asteroidGetAcceleration bodies a.pos a.vel t
    laser_thrust laser_start_time laser_duration
  let vel := a.vel + dt • accel
  let pos := a.pos + dt • vel
  ⟨pos, vel, a.mass, a.trail ++ [pos]⟩

/-- The per-asteroid physics update loop of main.py: each frame calls
    `asteroid.update(dt, t, all_bodies, laser...)` and then advances
    `t += dt`; iterated for a given number of frames. -/
def simLoop (dt : ℝ) (bodies : List Body)
    (laser_thrust laser_start_time laser_duration : Option ℝ) :
    ℕ → ℝ → Asteroid → Asteroid
  | 0, _, a => a
  | n + 1, t, a =>
      simLoop dt bodies laser_thrust laser_start_time laser_duration n (t + dt)
        (a.update dt t bodies laser_thrust laser_start_time laser_duration)

/-- The globals of AsteroidDeflectionGame1.py read by `get_planet_state`
    and `asteroid_accel`, in declaration order. -/
structure G1Config where
  M_SUN : ℝ
  M_EARTH : ℝ
  M_JUPITER : ℝ
  EARTH_ORBIT_RADIUS : ℝ
  JUPITER_ORBIT_RADIUS : ℝ
  EARTH_ORBITAL_VELOCITY : ℝ
  JUPITER_ORBITAL_VELOCITY : ℝ
  laser_thrust : ℝ
  laser_start_time : ℝ
  laser_duration : ℝ

/-- Earth half of AsteroidDeflectionGame1.py `get_planet_state`:
    a circular orbit starting on the +x axis. -/
def earthPosG1 (c : G1Config) (t : ℝ) : Vec :=
  (c.EARTH_ORBIT_RADIUS * Real.cos (c.EARTH_ORBITAL_VELOCITY / c.EARTH_ORBIT_RADIUS * t),
   c.EARTH_ORBIT_RADIUS * Real.sin (c.EARTH_ORBITAL_VELOCITY / c.EARTH_ORBIT_RADIUS * t))

/-- Jupiter half of AsteroidDeflectionGame1.py `get_planet_state`. -/
def jupiterPosG1 (c : G1Config) (t : ℝ) : Vec :=
  (c.JUPITER_ORBIT_RADIUS * Real.cos (c.JUPITER_ORBITAL_VELOCITY / c.JUPITER_ORBIT_RADIUS * t),
   c.JUPITER_ORBIT_RADIUS * Real.sin (c.JUPITER_ORBITAL_VELOCITY / c.JUPITER_ORBIT_RADIUS * t))

/-- One unguarded gravitational term of AsteroidDeflectionGame1.py
    `asteroid_accel`: `-G * m * r / np.linalg.norm(r) ** 3` with
    `r = pos - body_pos`.  The source has no zero-distance guard, so a
    zero norm makes the division undefined: modelled as `none`. -/
def g1GravTerm (m : ℝ) (bodyPos pos : Vec) : Option Vec :=
  let r := pos - bodyPos
  if linalgNorm r = 0 then none
  else some ((-G * m / linalgNorm r ^ 3) • r)

/-- The gravitational part of AsteroidDeflectionGame1.py
    `asteroid_accel`: `accel_sun + accel_earth + accel_jupiter`, with the
    Sun at the origin and Earth/Jupiter from `get_planet_state`. -/
def g1Gravity (c : G1Config) (pos : Vec) (t : ℝ) : Option Vec :=
  match g1GravTerm c.M_SUN (0, 0) pos,
        g1GravTerm c.M_EARTH (earthPosG1 c t) pos,
        g1GravTerm c.M_JUPITER (jupiterPosG1 c t) pos with
  | some aS, some aE, some aJ => some (aS + aE + aJ)
  | _, _, _ => none

/-- AsteroidDeflectionGame1.py `asteroid_accel`: the three gravitational
    terms, plus, when `laser_start_time <= t < laser_start_time +
    laser_duration`, the thrust term
    `laser_thrust * (-vel / np.linalg.norm(vel))`.  The source has no
    zero-velocity guard, so a zero velocity norm inside the window makes
    the division undefined: modelled as `none`. -/
def asteroid_accel (c : G1Config) (pos vel : Vec) (t : ℝ) : Option Vec :=
  match g1GravTerm c.M_SUN (0, 0) pos,
        g1GravTerm c.M_EARTH (earthPosG1 c t) pos,
        g1GravTerm c.M_JUPITER (jupiterPosG1 c t) pos with
  | some aS, some aE, some aJ =>
      let total_accel := aS + aE + aJ
      if c.laser_start_time ≤ t ∧ t < c.laser_start_time + c.laser_duration then
        if linalgNorm vel = 0 then none
        else some (total_accel + c.laser_thrust • ((linalgNorm vel)⁻¹ • (-vel)))
      else some total_accel
  | _, _, _ => none

/-- The initial values of the AsteroidDeflectionGame1.py globals. -/
def g1cfg0 : G1Config :=
  ⟨1.0, 3.003e-6, 9.548e-4, 1.0, 5.2,
   Real.sqrt (G * 1.0 / 1.0), Real.sqrt (G * 1.0 / 5.2),
   5e-9, 100, 20⟩

/-- The per-asteroid physics update of the AsteroidDeflectionGame1.py
    main loop, given the acceleration just computed for it:
    `vel += accel * dt; pos += vel * dt`. -/
def g1Step (accel pos vel : Vec) (dt : ℝ) : Vec × Vec :=
  let vel' := vel + dt • accel
  let pos' := pos + dt • vel'
  (pos', vel')

/-- Gravitational constant of new.py, in km^3/kg/s^2. -/
def Gnew : ℝ := 6.67430e-20

/-- new.py masses (kg). -/
def M_sun : ℝ := 1.989e30

/-- new.py Earth mass (kg). -/
def M_earth : ℝ := 5.972e24

/-- new.py Jupiter mass (kg). -/
def M_jupiter : ℝ := 1.898e27

/-- new.py fixed body positions (km); the planets do not move during a
    trial. -/
def r_sun : Vec := (0.0, 0.0)

/-- new.py Earth position (km). -/
def r_earth : Vec := (1.496e8, 0.0)

/-- new.py Jupiter position (km). -/
def r_jupiter : Vec := (7.785e8, 0.0)

/-- new.py nominal asteroid initial position (km). -/
def r_ast : Vec := (2.0e8, 1.0e7)

/-- new.py asteroid initial velocity (km/s). -/
def v_ast : Vec := (-2.0, 25.0)

/-- The accumulation loop of new.py `accel`, carrying the accumulator
    `a` (started from zeros(2)): for each `(m, r)` it adds
    `G * m * r_vec / r_mag ** 3` with `r_vec = r - pos`.  There is no
    zero-distance guard, so a zero `r_mag` makes the division undefined:
    modelled as `none`. -/
def accelGo (pos : Vec) (a : Vec) : List (ℝ × Vec) → Option Vec
  | [] => some a
  | (m, r) :: rest =>
      let r_vec := r - pos
      let r_mag := linalgNorm r_vec
      if r_mag = 0 then none
      else accelGo pos (a + (Gnew * m / r_mag ^ 3) • r_vec) rest

/-- new.py `accel(pos, bodies)`. -/
def accel (pos : Vec) (bodies : List (ℝ × Vec)) : Option Vec :=
  accelGo pos (0, 0) bodies

/-- new.py `rk4_step`: the four-stage scheme exactly as written in the
    source (`* dt` on each stage, `0.5 *` half steps, `/ 6` written as
    scaling by 6⁻¹). -/
def rk4_step (pos vel : Vec) (dt : ℝ) (bodies : List (ℝ × Vec)) :
    Option (Vec × Vec) :=
  match accel pos bodies with
  | none => none
  | some a1 =>
      let k1_v := dt • a1
      let k1_r := dt • vel
      match accel (pos + (0.5 : ℝ) • k1_r) bodies with
      | none => none
      | some a2 =>
          let k2_v := dt • a2
          let k2_r := dt • (vel + (0.5 : ℝ) • k1_v)
          match accel (pos + (0.5 : ℝ) • k2_r) bodies with
          | none => none
          | some a3 =>
              let k3_v := dt • a3
              let k3_r := dt • (vel + (0.5 : ℝ) • k2_v)
              match accel (pos + k3_r) bodies with
              | none => none
              | some a4 =>
                  let k4_v := dt • a4
                  let k4_r := dt • (vel + k3_v)
                  some (pos + (6 : ℝ)⁻¹ • (k1_r + (2 : ℝ) • k2_r + (2 : ℝ) • k3_r + k4_r),
                        vel + (6 : ℝ)⁻¹ • (k1_v + (2 : ℝ) • k2_v + (2 : ℝ) • k3_v + k4_v))

/-- The body list passed to `rk4_step` in the new.py trial loop. -/
def bodiesNew : List (ℝ × Vec) := [(M_sun, r_sun), (M_earth, r_earth), (M_jupiter, r_jupiter)]

/-- The inner loop of one new.py trial, by remaining iteration count of
    `range(0, t_end, dt)`: advance one `rk4_step`, then test
    `np.linalg.norm(pos - r_earth) < 6371` and stop with a collision if
    it holds.  Returns whether the trial collided.  The initial state is
    never tested: the first test sees the post-step position. -/
def trialSteps : ℕ → Vec → Vec → ℝ → Option Bool
  | 0, _, _, _ => some false
  | n + 1, pos, vel, dt =>
      match rk4_step pos vel dt bodiesNew with
      | none => none
      | some pv =>
          if linalgNorm (pv.1 - r_earth) < 6371 then some true
          else trialSteps n pv.1 pv.2 dt

/-- The outer Monte Carlo loop of new.py: trial `i` starts from
    `r_ast + sigma * draws i` (the `np.random.randn(2) * pos_uncertainty`
    perturbation; the velocity is never perturbed) and increments
    `collision_count` when the trial collides. -/
def runTrials (ns : ℕ) (dt sigma : ℝ) (draws : ℕ → Vec) : ℕ → Option ℕ
  | 0 => some 0
  | n + 1 =>
      match runTrials ns dt sigma draws n with
      | none => none
      | some c =>
          match trialSteps ns (r_ast + sigma • draws n) v_ast dt with
          | none => none
          | some collided => if collided then some (c + 1) else some c

/-- new.py `collision_prob = collision_count / n_trials` after running
    all trials; dividing by a zero trial count is a ZeroDivisionError,
    modelled as `none`. -/
def runMonteCarlo (ns : ℕ) (dt sigma : ℝ) (draws : ℕ → Vec)
    (n_trials : ℕ) : Option ℝ :=
  match runTrials ns dt sigma draws n_trials with
  | none => none
  | some c => if n_trials = 0 then none else some ((c : ℝ) / (n_trials : ℝ))

/-! Basic facts about the embedded norm. -/

lemma linalgNorm_nonneg (v : Vec) : 0 ≤ linalgNorm v := Real.sqrt_nonneg _

lemma linalgNorm_zero : linalgNorm 0 = 0 := by
  simp [linalgNorm]

lemma linalgNorm_eq_zero_iff {v : Vec} : linalgNorm v = 0 ↔ v = 0 := by
  unfold linalgNorm
  rw [Real.sqrt_eq_zero (by positivity)]
  constructor
  · intro h
    have h1 : v.1 = 0 := by nlinarith [sq_nonneg v.1, sq_nonneg v.2]
    have h2 : v.2 = 0 := by nlinarith [sq_nonneg v.1, sq_nonneg v.2]
    exact Prod.ext h1 h2
  · intro h
    rw [h]
    norm_num

lemma linalgNorm_pos {v : Vec} (h : v ≠ 0) : 0 < linalgNorm v :=
  lt_of_le_of_ne (linalgNorm_nonneg v)
    (fun h0 => h (linalgNorm_eq_zero_iff.mp h0.symm))

/-- A source body sitting exactly at the evaluation position contributes
    nothing to the gravitational accumulation loop. -/
lemma gravityTotal_skip (l1 l2 : List Body) (b : Body) (pos : Vec) (t : ℝ)
    (hb : b.positionAt t = pos) :
    gravityTotal (l1 ++ b :: l2) pos t = gravityTotal (l1 ++ l2) pos t := by
  unfold gravityTotal
  rw [List.foldl_append, List.foldl_append, List.foldl_cons]
  simp [hb, sub_self, linalgNorm_zero]

/-- C1: in physics.py's force evaluators (the shared loop of
    Planet.get_acceleration and Asteroid.get_acceleration) a source body
    whose distance to the target is exactly zero is skipped and
    contributes nothing, so no division by zero occurs there.  (The
    claim's further assertion that this holds for every variant fails:
    see the counterexample on new.py's accel.) -/
theorem coincident_source_contributes_nothing (l1 l2 : List Body) (b : Body)
    (pos vel : Vec) (t : ℝ) (lt ls ld : Option ℝ)
    (hb : b.positionAt t = pos) :
    asteroidGetAcceleration (l1 ++ b :: l2) pos vel t lt ls ld =
      asteroidGetAcceleration (l1 ++ l2) pos vel t lt ls ld ∧
    planetGetAcceleration (l1 ++ b :: l2) pos t =
      planetGetAcceleration (l1 ++ l2) pos t := by
  have hg := gravityTotal_skip l1 l2 b pos t hb
  refine ⟨?_, hg⟩
  unfold asteroidGetAcceleration
  rw [hg]

/-- C1 witness: an asteroid-valued source body placed exactly at the
    evaluation position is skipped. -/
theorem coincident_source_contributes_nothing_witness :
    (Body.free ⟨((0:ℝ), (0:ℝ)), ((0:ℝ), (0:ℝ)), 1, []⟩).positionAt 0 = ((0:ℝ), (0:ℝ)) ∧
    asteroidGetAcceleration [Body.free ⟨((0:ℝ), (0:ℝ)), ((0:ℝ), (0:ℝ)), 1, []⟩]
        ((0:ℝ), (0:ℝ)) ((1:ℝ), (0:ℝ)) 0 none none none =
      asteroidGetAcceleration [] ((0:ℝ), (0:ℝ)) ((1:ℝ), (0:ℝ)) 0 none none none :=
  ⟨rfl,
   (coincident_source_contributes_nothing [] [] _ _ _ _ _ _ _ rfl).1⟩

/-- C1 counterexample: new.py's accel has no zero-distance guard; with a
    source body coincident with the evaluated position the division by
    `r_mag ** 3 = 0` has no value (numpy emits nan), so the term is not
    skipped and the force evaluation is undefined. -/
theorem accel_zero_distance_undefined :
    accel r_sun [(M_sun, r_sun)] = none := by
  simp [accel, accelGo, sub_self, linalgNorm_zero]

/-- C7: one explicit Euler step updates the velocity first and then
    moves the position with the already-updated velocity, in both
    physics.py's Asteroid.update and the main-loop update of
    AsteroidDeflectionGame1.py. -/
theorem euler_velocity_updated_first (a : Asteroid) (dt t : ℝ)
    (bodies : List Body) (lt ls ld : Option ℝ) (av pos vel : Vec) :
    (a.update dt t bodies lt ls ld).vel =
      a.vel + dt • asteroidGetAcceleration bodies a.pos a.vel t lt ls ld ∧
    (a.update dt t bodies lt ls ld).pos =
      a.pos + dt • (a.update dt t bodies lt ls ld).vel ∧
    (g1Step av pos vel dt).2 = vel + dt • av ∧
    (g1Step av pos vel dt).1 = pos + dt • (g1Step av pos vel dt).2 :=
  ⟨rfl, rfl, rfl, rfl⟩

/-- C8 amended: no configuration validation exists at any boundary:
    Asteroid.update executes its full Euler integration step for every
    step size, including non-positive dt, and for every mass, including
    a negative one. -/
theorem invalid_config_not_rejected (a : Asteroid) (dt t : ℝ)
    (bodies : List Body) (lt ls ld : Option ℝ)
    (_h : dt ≤ 0 ∨ a.mass < 0) :
    (a.update dt t bodies lt ls ld).vel =
      a.vel + dt • asteroidGetAcceleration bodies a.pos a.vel t lt ls ld ∧
    (a.update dt t bodies lt ls ld).pos =
      a.pos + dt • (a.update dt t bodies lt ls ld).vel ∧
    (a.update dt t bodies lt ls ld).trail =
      a.trail ++ [(a.update dt t bodies lt ls ld).pos] :=
  ⟨rfl, rfl, rfl⟩

/-- C8 witness: the invalid step size dt = -1 is accepted and the step
    runs. -/
theorem invalid_config_not_rejected_witness :
    (-1 : ℝ) ≤ 0 ∧
    ((Asteroid.mk ((0:ℝ), (0:ℝ)) ((1:ℝ), (0:ℝ)) 1 []).update (-1) 0 [] none none none).pos =
      (((0:ℝ), (0:ℝ)) : Vec) +
        (-1 : ℝ) • (((Asteroid.mk ((0:ℝ), (0:ℝ)) ((1:ℝ), (0:ℝ)) 1 []).update (-1) 0 [] none none none).vel) :=
  ⟨by norm_num,
   (invalid_config_not_rejected (Asteroid.mk ((0:ℝ), (0:ℝ)) ((1:ℝ), (0:ℝ)) 1 [])
      (-1) 0 [] none none none (Or.inl (by norm_num))).2.1⟩

/-- C8 counterexample: with the invalid step size dt = -1 an integration
    step is still executed: the position moves from (0,0) to (-1,0)
    instead of the call being rejected before the integration. -/
theorem invalid_dt_executes_step :
    ((Asteroid.mk ((0:ℝ), (0:ℝ)) ((1:ℝ), (0:ℝ)) 1 []).update (-1) 0 [] none none none).pos =
      ((-1 : ℝ), (0 : ℝ)) ∧
    ((Asteroid.mk ((0:ℝ), (0:ℝ)) ((1:ℝ), (0:ℝ)) 1 []).update (-1) 0 [] none none none).pos ≠
      ((0 : ℝ), (0 : ℝ)) := by
  have hstep :
      ((Asteroid.mk ((0:ℝ), (0:ℝ)) ((1:ℝ), (0:ℝ)) 1 []).update (-1) 0 [] none none none).pos =
        ((-1 : ℝ), (0 : ℝ)) := by
    show (((0:ℝ), (0:ℝ)) : Vec) +
        (-1 : ℝ) • ((((1:ℝ), (0:ℝ)) : Vec) +
          (-1 : ℝ) • asteroidGetAcceleration [] ((0:ℝ), (0:ℝ)) ((1:ℝ), (0:ℝ)) 0 none none none) =
      ((-1 : ℝ), (0 : ℝ))
    have hacc : asteroidGetAcceleration [] ((0:ℝ), (0:ℝ)) ((1:ℝ), (0:ℝ)) 0 none none none =
        (0 : Vec) := rfl
    rw [hacc]
    simp [Prod.ext_iff]
  refine ⟨hstep, ?_⟩
  rw [hstep]
  simp [Prod.ext_iff]

/-- C10: if any of the three laser parameters is None, the thrust term
    is never applied and Asteroid.get_acceleration returns the purely
    gravitational acceleration, identical to the call with no thrust
    configured at all. -/
theorem thrust_requires_all_three_parameters (bodies : List Body)
    (pos vel : Vec) (t : ℝ) (lt ls ld : Option ℝ)
    (h : lt = none ∨ ls = none ∨ ld = none) :
    asteroidGetAcceleration bodies pos vel t lt ls ld =
      gravityTotal bodies pos t ∧
    asteroidGetAcceleration bodies pos vel t lt ls ld =
      asteroidGetAcceleration bodies pos vel t none none none := by
  rcases h with h | h | h <;> subst h
  · cases ls <;> cases ld <;> exact ⟨rfl, rfl⟩
  · cases lt <;> cases ld <;> exact ⟨rfl, rfl⟩
  · cases lt <;> cases ls <;> exact ⟨rfl, rfl⟩

/-- C10 witness: with the thrust magnitude absent, a call inside an
    otherwise active window with nonzero velocity is purely
    gravitational. -/
theorem thrust_requires_all_three_parameters_witness :
    asteroidGetAcceleration [] ((0:ℝ), (0:ℝ)) ((1:ℝ), (0:ℝ)) 5 none (some 0) (some 10) =
      gravityTotal [] ((0:ℝ), (0:ℝ)) 5 :=
  (thrust_requires_all_three_parameters [] ((0:ℝ), (0:ℝ)) ((1:ℝ), (0:ℝ)) 5
    none (some 0) (some 10) (Or.inl rfl)).1

/-- C2: for a time outside the half-open window
    [laser_start, laser_start + laser_duration) the acceleration with
    thrust configured is exactly the no-thrust acceleration, in both
    physics.py's Asteroid.get_acceleration and
    AsteroidDeflectionGame1.py's asteroid_accel; inside the window the
    thrust term is added (for a body whose velocity is nonzero — the
    zero-velocity case is the subject of the zero-velocity-skip claim). -/
theorem thrust_window_gating (bodies : List Body) (pos vel : Vec)
    (t lt ls ld : ℝ) (c : G1Config) (p2 v2 : Vec) (t2 : ℝ) :
    ((t < ls ∨ ls + ld ≤ t) →
      asteroidGetAcceleration bodies pos vel t (some lt) (some ls) (some ld) =
        asteroidGetAcceleration bodies pos vel t none none none) ∧
    (ls ≤ t → t < ls + ld → vel ≠ 0 →
      asteroidGetAcceleration bodies pos vel t (some lt) (some ls) (some ld) =
        asteroidGetAcceleration bodies pos vel t none none none +
          lt • ((linalgNorm vel)⁻¹ • (-vel))) ∧
    ((t2 < c.laser_start_time ∨ c.laser_start_time + c.laser_duration ≤ t2) →
      asteroid_accel c p2 v2 t2 = g1Gravity c p2 t2) := by
  refine ⟨?_, ?_, ?_⟩
  · intro hout
    have hno : ¬ (ls ≤ t ∧ t < ls + ld) := by
      rcases hout with h | h
      · exact fun hc => absurd hc.1 (not_le.mpr h)
      · exact fun hc => absurd hc.2 (not_lt.mpr h)
    simp only [asteroidGetAcceleration]
    rw [if_neg hno]
  · intro hin1 hin2 hv
    simp only [asteroidGetAcceleration]
    rw [if_pos ⟨hin1, hin2⟩, if_pos (linalgNorm_pos hv)]
  · intro hout
    have hno : ¬ (c.laser_start_time ≤ t2 ∧ t2 < c.laser_start_time + c.laser_duration) := by
      rcases hout with h | h
      · exact fun hc => absurd hc.1 (not_le.mpr h)
      · exact fun hc => absurd hc.2 (not_lt.mpr h)
    unfold asteroid_accel g1Gravity
    cases h1 : g1GravTerm c.M_SUN (0, 0) p2 <;>
      cases h2 : g1GravTerm c.M_EARTH (earthPosG1 c t2) p2 <;>
        cases h3 : g1GravTerm c.M_JUPITER (jupiterPosG1 c t2) p2 <;>
          simp [hno]

/-- C2 witness: concrete calls before the window, inside the window, and
    before the Game1 window. -/
theorem thrust_window_gating_witness :
    asteroidGetAcceleration [] ((0:ℝ), (0:ℝ)) ((1:ℝ), (0:ℝ)) 0 (some 1) (some 1) (some 1) =
      asteroidGetAcceleration [] ((0:ℝ), (0:ℝ)) ((1:ℝ), (0:ℝ)) 0 none none none ∧
    asteroidGetAcceleration [] ((0:ℝ), (0:ℝ)) ((1:ℝ), (0:ℝ)) 2 (some 1) (some 1) (some 2) =
      asteroidGetAcceleration [] ((0:ℝ), (0:ℝ)) ((1:ℝ), (0:ℝ)) 2 none none none +
        (1:ℝ) • ((linalgNorm ((1:ℝ), (0:ℝ)))⁻¹ • (-(((1:ℝ), (0:ℝ)) : Vec))) ∧
    asteroid_accel g1cfg0 ((1:ℝ), (1:ℝ)) ((1:ℝ), (0:ℝ)) 0 =
      g1Gravity g1cfg0 ((1:ℝ), (1:ℝ)) 0 :=
  ⟨(thrust_window_gating [] ((0:ℝ), (0:ℝ)) ((1:ℝ), (0:ℝ)) 0 1 1 1 g1cfg0
      ((1:ℝ), (1:ℝ)) ((1:ℝ), (0:ℝ)) 0).1 (Or.inl (by norm_num)),
   (thrust_window_gating [] ((0:ℝ), (0:ℝ)) ((1:ℝ), (0:ℝ)) 2 1 1 2 g1cfg0
      ((1:ℝ), (1:ℝ)) ((1:ℝ), (0:ℝ)) 0).2.1 (by norm_num) (by norm_num)
      (by simp [Prod.ext_iff]),
   (thrust_window_gating [] ((0:ℝ), (0:ℝ)) ((1:ℝ), (0:ℝ)) 0 1 1 1 g1cfg0
      ((1:ℝ), (1:ℝ)) ((1:ℝ), (0:ℝ)) 0).2.2 (Or.inl (by norm_num [g1cfg0]))⟩

/-- C3 amended: in physics.py's Asteroid.get_acceleration a free body
    with exactly zero velocity inside the active thrust window has the
    thrust term skipped and receives the purely gravitational
    acceleration.  (The claim's assertion that this holds in every
    variant fails: see the counterexample on AsteroidDeflectionGame1.py's
    asteroid_accel.) -/
theorem zero_velocity_thrust_skipped (bodies : List Body) (pos : Vec)
    (t lt ls ld : ℝ) (h1 : ls ≤ t) (h2 : t < ls + ld) :
    asteroidGetAcceleration bodies pos 0 t (some lt) (some ls) (some ld) =
      gravityTotal bodies pos t := by
  simp only [asteroidGetAcceleration]
  rw [if_pos ⟨h1, h2⟩, if_neg]
  rw [linalgNorm_zero]
  exact lt_irrefl 0

/-- C3 witness: a concrete zero-velocity call inside an active window. -/
theorem zero_velocity_thrust_skipped_witness :
    (0:ℝ) ≤ 0 ∧ (0:ℝ) < 0 + 1 ∧
    asteroidGetAcceleration [] ((0:ℝ), (0:ℝ)) 0 0 (some 1) (some 0) (some 1) =
      gravityTotal [] ((0:ℝ), (0:ℝ)) 0 :=
  ⟨le_refl 0, by norm_num,
   zero_velocity_thrust_skipped [] ((0:ℝ), (0:ℝ)) 0 1 0 1 (le_refl 0) (by norm_num)⟩

/-- C3 counterexample: AsteroidDeflectionGame1.py's asteroid_accel has
    no zero-velocity guard: for a body with exactly zero velocity at
    t = 100, inside the laser window [100, 120), the thrust direction
    division `-vel / np.linalg.norm(vel)` divides by zero, so the force
    evaluation is undefined instead of falling back to the gravitational
    acceleration. -/
theorem g1_zero_velocity_thrust_undefined :
    asteroid_accel g1cfg0 ((-1.1 : ℝ), (0.3 : ℝ)) 0 100 = none := by
  unfold asteroid_accel
  cases h1 : g1GravTerm g1cfg0.M_SUN (0, 0) ((-1.1 : ℝ), (0.3 : ℝ)) <;>
    cases h2 : g1GravTerm g1cfg0.M_EARTH (earthPosG1 g1cfg0 100) ((-1.1 : ℝ), (0.3 : ℝ)) <;>
      cases h3 : g1GravTerm g1cfg0.M_JUPITER (jupiterPosG1 g1cfg0 100) ((-1.1 : ℝ), (0.3 : ℝ)) <;>
        norm_num [h1, h2, h3, linalgNorm_zero, g1cfg0]

/-- C4: evidence for the code bug.  A trial started exactly at the
    collision radius from the reference body is at distance exactly 6371,
    which does not satisfy the code's strict `< 6371` collision test; and
    the trial loop of new.py only ever applies that test to the
    post-step position (the initial state is fed through rk4_step before
    the first test), so such a trial is not reported as a collision on
    the first step. -/
theorem collision_check_misses_start :
    linalgNorm ((r_earth + ((6371:ℝ), (0:ℝ))) - r_earth) = 6371 ∧
    ¬ (linalgNorm ((r_earth + ((6371:ℝ), (0:ℝ))) - r_earth) < 6371) ∧
    (∀ (n : ℕ) (pos vel : Vec) (dt : ℝ),
      trialSteps (n + 1) pos vel dt =
        match rk4_step pos vel dt bodiesNew with
        | none => none
        | some pv =>
            if linalgNorm (pv.1 - r_earth) < 6371 then some true
            else trialSteps n pv.1 pv.2 dt) := by
  have hn : linalgNorm ((r_earth + ((6371:ℝ), (0:ℝ))) - r_earth) = 6371 := by
    rw [add_sub_cancel_left]
    show Real.sqrt ((6371:ℝ) ^ 2 + (0:ℝ) ^ 2) = 6371
    rw [show (6371:ℝ) ^ 2 + (0:ℝ) ^ 2 = 6371 ^ 2 by norm_num]
    exact Real.sqrt_sq (by norm_num)
  exact ⟨hn, by rw [hn]; exact lt_irrefl 6371, fun n pos vel dt => rfl⟩

/-- One Asteroid.update appends exactly one position to the trail. -/
lemma update_trail_length (a : Asteroid) (dt t : ℝ) (bodies : List Body)
    (lt ls ld : Option ℝ) :
    (a.update dt t bodies lt ls ld).trail.length = a.trail.length + 1 := by
  simp [Asteroid.update]

/-- The trail length after n frames of the main loop. -/
lemma simLoop_trail_length (dt : ℝ) (bodies : List Body) (lt ls ld : Option ℝ) :
    ∀ (n : ℕ) (t : ℝ) (a : Asteroid),
      (simLoop dt bodies lt ls ld n t a).trail.length = a.trail.length + n
  | 0, _, _ => rfl
  | n + 1, t, a => by
      rw [simLoop, simLoop_trail_length dt bodies lt ls ld n, update_trail_length]
      omega

/-- C9 amended: the trail is not bounded: it grows by exactly one
    recorded position per integration step, without limit — after n
    steps of the main loop its length is the initial length plus n. -/
theorem trail_grows_one_per_step (dt : ℝ) (bodies : List Body)
    (lt ls ld : Option ℝ) (n : ℕ) (t : ℝ) (a : Asteroid) :
    (simLoop dt bodies lt ls ld n t a).trail.length = a.trail.length + n :=
  simLoop_trail_length dt bodies lt ls ld n t a

/-- C9 counterexample: there is no fixed bound B on the length of a free
    body's trail over all numbers of integration steps. -/
theorem trail_not_bounded :
    ¬ ∃ B : ℕ, ∀ (a : Asteroid) (n : ℕ),
      (simLoop 1 [] none none none n 0 a).trail.length ≤ B := by
  rintro ⟨B, hB⟩
  have h := hB ⟨((0:ℝ), (0:ℝ)), ((0:ℝ), (0:ℝ)), 1, []⟩ (B + 1)
  rw [simLoop_trail_length] at h
  simp at h

/-- With zero perturbation every trial collides exactly when the nominal
    trial does, so the collision count is all-or-nothing. -/
lemma runTrials_some (ns : ℕ) (dt : ℝ) (draws : ℕ → Vec) (b : Bool)
    (h : trialSteps ns r_ast v_ast dt = some b) :
    ∀ N : ℕ, runTrials ns dt 0 draws N = some (if b then N else 0)
  | 0 => by cases b <;> simp [runTrials]
  | N + 1 => by
      have hz : r_ast + (0 : ℝ) • draws N = r_ast := by simp
      rw [runTrials, runTrials_some ns dt draws b h N, hz, h]
      cases b <;> simp

/-- With zero perturbation a crashing nominal trial crashes every run
    that performs at least one trial. -/
lemma runTrials_none (ns : ℕ) (dt : ℝ) (draws : ℕ → Vec)
    (h : trialSteps ns r_ast v_ast dt = none) :
    ∀ N : ℕ, runTrials ns dt 0 draws (N + 1) = none
  | 0 => by
      have hz : r_ast + (0 : ℝ) • draws 0 = r_ast := by simp
      rw [runTrials, hz, h]
      simp [runTrials]
  | N + 1 => by
      have hz : r_ast + (0 : ℝ) • draws (N + 1) = r_ast := by simp
      rw [runTrials, runTrials_none ns dt draws h N]

/-- C5: with the position perturbation scale equal to zero (the velocity
    is never perturbed by new.py) all Monte Carlo trials are identical
    regardless of the random draws, and any returned collision
    probability is exactly 0 or exactly 1. -/
theorem monte_carlo_zero_sigma_deterministic (ns : ℕ) (dt sigma : ℝ)
    (draws draws' : ℕ → Vec) (N : ℕ) (hs : sigma = 0) (hN : 1 ≤ N) :
    (∀ i j : ℕ,
      trialSteps ns (r_ast + sigma • draws i) v_ast dt =
        trialSteps ns (r_ast + sigma • draws' j) v_ast dt) ∧
    (∀ p : ℝ, runMonteCarlo ns dt sigma draws N = some p → p = 0 ∨ p = 1) := by
  subst hs
  have hN0 : N ≠ 0 := by omega
  constructor
  · intro i j
    simp
  · intro p hp
    unfold runMonteCarlo at hp
    cases h : trialSteps ns r_ast v_ast dt with
    | none =>
        obtain ⟨N', rfl⟩ : ∃ N', N = N' + 1 := ⟨N - 1, by omega⟩
        rw [runTrials_none ns dt draws h N'] at hp
        simp at hp
    | some b =>
        rw [runTrials_some ns dt draws b h N] at hp
        simp only [if_neg hN0] at hp
        cases b with
        | false =>
            left
            simp at hp
            exact hp.symm
        | true =>
            right
            simp at hp
            rw [div_self (by exact_mod_cast hN0 : (N : ℝ) ≠ 0)] at hp
            exact hp.symm

/-- C5 witness: a concrete zero-sigma run (one trial, zero steps)
    evaluates to the probability 0, which the theorem pins to {0, 1}. -/
theorem monte_carlo_zero_sigma_deterministic_witness :
    runMonteCarlo 0 3600 0 (fun _ => ((0:ℝ), (0:ℝ))) 1 = some 0 ∧
    ((0:ℝ) = 0 ∨ (0:ℝ) = 1) := by
  have hrun : runMonteCarlo 0 3600 0 (fun _ => ((0:ℝ), (0:ℝ))) 1 = some 0 := by
    simp [runMonteCarlo, runTrials, trialSteps]
  exact ⟨hrun,
    (monte_carlo_zero_sigma_deterministic 0 3600 0 (fun _ => ((0:ℝ), (0:ℝ)))
      (fun _ => ((0:ℝ), (0:ℝ))) 1 rfl (le_refl 1)).2 0 hrun⟩

/-- C6: one rk4_step is the classic four-stage scheme: the acceleration
    stages are evaluated at pos, pos + k1_r/2, pos + k2_r/2 and
    pos + k3_r, and the returned state adds the position and velocity
    increments combined with weights 1,2,2,1 over 6. -/
theorem rk4_is_classic_scheme (pos vel : Vec) (dt : ℝ)
    (bodies : List (ℝ × Vec)) (a1 a2 a3 a4 : Vec)
    (h1 : accel pos bodies = some a1)
    (h2 : accel (pos + (0.5 : ℝ) • (dt • vel)) bodies = some a2)
    (h3 : accel (pos + (0.5 : ℝ) • (dt • (vel + (0.5 : ℝ) • (dt • a1)))) bodies = some a3)
    (h4 : accel (pos + dt • (vel + (0.5 : ℝ) • (dt • a2))) bodies = some a4) :
    rk4_step pos vel dt bodies =
      some (pos + (6 : ℝ)⁻¹ • (dt • vel +
              (2 : ℝ) • (dt • (vel + (0.5 : ℝ) • (dt • a1))) +
              (2 : ℝ) • (dt • (vel + (0.5 : ℝ) • (dt • a2))) +
              dt • (vel + dt • a3)),
            vel + (6 : ℝ)⁻¹ • (dt • a1 + (2 : ℝ) • (dt • a2) +
              (2 : ℝ) • (dt • a3) + dt • a4)) := by
  simp only [rk4_step, h1, h2, h3, h4]

/-- C6 witness: with an empty body list every acceleration stage is the
    zero vector and one unit step moves the state along the velocity. -/
theorem rk4_is_classic_scheme_witness :
    accel ((0:ℝ), (0:ℝ)) [] = some ((0:ℝ), (0:ℝ)) ∧
    rk4_step ((0:ℝ), (0:ℝ)) ((1:ℝ), (0:ℝ)) 1 [] =
      some ((((1:ℝ), (0:ℝ)) : Vec), (((1:ℝ), (0:ℝ)) : Vec)) := by
  have h : ∀ p : Vec, accel p [] = some ((0:ℝ), (0:ℝ)) := fun _ => rfl
  refine ⟨h _, ?_⟩
  rw [rk4_is_classic_scheme ((0:ℝ), (0:ℝ)) ((1:ℝ), (0:ℝ)) 1 []
    ((0:ℝ), (0:ℝ)) ((0:ℝ), (0:ℝ)) ((0:ℝ), (0:ℝ)) ((0:ℝ), (0:ℝ))
    (h _) (h _) (h _) (h _)]
  norm_num [Prod.ext_iff]

end

end Seds
